import Mathlib

/-!
# Verification of the InfoSynth retrieval core

A shallow embedding of `src/core/retriever.py` and `src/core/llm.py`.

Conventions of the embedding:
* Python floats are modelled as rationals (`ℚ`); the claims under study concern
  exact guard conditions, ordering and control flow, not floating-point rounding.
* Fallible Python code (exceptions) is modelled with `Except String`.
* External collaborators (the sklearn vectorizer, the BM25 library, the query
  classifier, the Gemini client, the format-specific text extractors) are not
  code of this repository; their outputs enter the embedded functions as
  explicit arguments, and the library-raised errors the repository code can
  trigger (`max()` on an empty sequence, empty-vocabulary fitting, zero-division
  in BM25 initialisation, list `IndexError`) are modelled at the call sites
  where the repository reaches them.
-/

/-- Python `str.strip()` on a character list: drop whitespace from both ends.
(Character-level so that the kernel can evaluate it on literals.) -/
def trimChars (l : List Char) : List Char :=
  ((l.dropWhile Char.isWhitespace).reverse.dropWhile Char.isWhitespace).reverse

/-- Split a character list at every character satisfying `p`, keeping empty
pieces (the behaviour of splitting on each separator occurrence). -/
def splitChars (p : Char → Bool) : List Char → List (List Char)
  | [] => [[]]
  | c :: cs =>
    let rest := splitChars p cs
    if p c then [] :: rest
    else (c :: rest.headD []) :: rest.tail

/-- Python `s.split()` — split on runs of whitespace, dropping empty pieces;
splitting at every whitespace character and discarding empty pieces is the
same function. -/
def pySplitWs (s : String) : List String :=
  ((splitChars (fun c => c.isWhitespace) s.data).filter (fun w => w ≠ [])).map
    String.mk

/-- The paragraph splitting of `chunk_text` (retriever.py lines 237-238):
`re.split(r"\n{2,}|(?<=\n)\s*(?=\S)", text.strip())` followed by
`[p.strip().replace("\n", " ") for p in paragraphs if p.strip()]`.
The regex cuts the stripped text after every newline that is eventually
followed by a non-space character, and at runs of two or more newlines; on the
stripped text this coincides with cutting at every newline, trimming each
piece and dropping the blank pieces, which is how it is modelled here.  After
these cuts no piece retains an inner newline, so the source's
`replace("\n", " ")` is kept (as a character map) but is the identity on every
piece. -/
def splitParas (text : String) : List String :=
  let pieces := splitChars (fun c => c = '\n') (trimChars text.data)
  (pieces.filter (fun p => trimChars p ≠ [])).map
    (fun p => String.mk ((trimChars p).map (fun c => if c = '\n' then ' ' else c)))

/-- One iteration of the accumulation loop of `chunk_text`
(retriever.py lines 244-256).  State: (chunks, current_chunk, current_length). -/
def chunkStep (chunk_size overlap : ℕ) (st : List String × List String × ℕ)
    (para : String) : List String × List String × ℕ :=
  let chunks := st.1
  let current_chunk := st.2.1
  let current_length := st.2.2
  let para_words := pySplitWs para
  if para_words = [] then (chunks, current_chunk, current_length)
  else if current_length + para_words.length ≤ chunk_size then
    (chunks, current_chunk ++ para_words, current_length + para_words.length)
  else
    let overlap_words :=
      if overlap > 0 then current_chunk.drop (current_chunk.length - overlap) else []
    (chunks ++ [String.intercalate (" ") current_chunk],
     overlap_words ++ para_words, (overlap_words ++ para_words).length)

/-- `chunk_text` (retriever.py lines 236-261).  The Python defaults are
`chunk_size = 500`, `overlap = 50`. -/
def chunk_text (text : String) (chunk_size : ℕ) (overlap : ℕ) : List String :=
  let paragraphs := splitParas text
  let st := paragraphs.foldl (chunkStep chunk_size overlap) ([], [], 0)
  if st.2.1 ≠ [] then st.1 ++ [String.intercalate (" ") st.2.1] else st.1

/-- Python's builtin `max` on a nonempty sequence.  `max([])` raises
`ValueError`; the `0` returned here for `[]` is never relied upon — the one
caller (`Retriever.search`) models that exception explicitly before use. -/
def pymax : List ℚ → ℚ
  | [] => 0
  | x :: xs => xs.foldl max x

/-- The score normalisation of `Retriever.search` (retriever.py lines 75-80):
`m = max(v) if max(v) > 0 else 1; v_norm = v / m`. -/
def normalizeVec (v : List ℚ) : List ℚ :=
  let m := if pymax v > 0 then pymax v else 1
  v.map (fun x => x / m)

/-- Python `dict.get(key, default)` on a string-keyed dictionary of weights. -/
def dictGet (d : List (String × ℚ)) (k : String) (dflt : ℚ) : ℚ :=
  match d.find? (fun p => p.1 == k) with
  | some p => p.2
  | none => dflt

/-- The index comparison used to model `numpy.argsort`: ascending score, ties
in ascending index order (the linear order a *stable* ascending argsort
realises).  numpy's default `kind='quicksort'` is an unstable introsort in
general; it coincides with the stable model exactly in its insertion-sort
regime (small arrays, the regime every concrete input in this file lives in),
while on larger arrays with tied scores it may return a *different valid
sorting permutation*.  Accordingly, only consequences that hold for every
valid sorting permutation (descending score order of the results, each
tuple's per-index contents, the result-count cap) are read off this model as
universal facts about the program; the order *within* a tie class is asserted
only at small concrete inputs where the model is exact. -/
def idxLe (v : List ℚ) (i j : ℕ) : Prop :=
  v.getD i 0 < v.getD j 0 ∨ (v.getD i 0 = v.getD j 0 ∧ i ≤ j)

instance (v : List ℚ) : DecidableRel (idxLe v) := fun i j => by
  unfold idxLe; infer_instance

instance (v : List ℚ) : IsTotal ℕ (idxLe v) := by
  constructor
  intro i j
  rcases lt_trichotomy (v.getD i 0) (v.getD j 0) with h | h | h
  · exact Or.inl (Or.inl h)
  · rcases Nat.le_total i j with hij | hij
    · exact Or.inl (Or.inr ⟨h, hij⟩)
    · exact Or.inr (Or.inr ⟨h.symm, hij⟩)
  · exact Or.inr (Or.inl h)

instance (v : List ℚ) : IsTrans ℕ (idxLe v) := by
  constructor
  intro a b c hab hbc
  rcases hab with h1 | ⟨e1, l1⟩
  · rcases hbc with h2 | ⟨e2, _⟩
    · exact Or.inl (h1.trans h2)
    · exact Or.inl (e2 ▸ h1)
  · rcases hbc with h2 | ⟨e2, l2⟩
    · exact Or.inl (e1 ▸ h2)
    · exact Or.inr ⟨e1.trans e2, l1.trans l2⟩

/-- `combined_scores.argsort()` (retriever.py line 86): a permutation of
`[0, …, n-1]` that sorts the scores ascending.  Modelled as the stable such
permutation (ties in ascending index order); see the caveat on `idxLe` for
where this coincides with numpy's default unstable sort and which
consequences may be read as universal. -/
def argsortAsc (v : List ℚ) : List ℕ :=
  (List.range v.length).insertionSort (idxLe v)

/-- `combined_scores.argsort()[::-1][:max_results]` (retriever.py line 86). -/
def rankedTop (v : List ℚ) (k : ℕ) : List ℕ :=
  (argsortAsc v).reverse.take k

/-- `(dense_weight * tfidf_norm) + (sparse_weight * bm25_norm)`
(retriever.py line 83), an elementwise numpy expression. -/
def combineWeighted (dw sw : ℚ) (t b : List ℚ) : List ℚ :=
  List.zipWith (fun x y => dw * x + sw * y) t b

/-- Python list indexing `l[i]` for a non-negative index: raises `IndexError`
when out of range. -/
def pyIndex {α : Type} (l : List α) (i : ℕ) : Except String α :=
  match l.get? i with
  | some a => Except.ok a
  | none => Except.error ("IndexError: list index out of range")

/-- The per-result metadata dictionary `result_meta` built by `Retriever.search`
(retriever.py lines 102-106). -/
structure ResultMeta where
  combined_score : ℚ
  tfidf_score : ℚ
  bm25_score : ℚ
deriving DecidableEq, Repr

/-- One element of the list returned by `Retriever.search` (retriever.py
lines 109-111): `(self.documents[idx], self.doc_paths[idx],
combined_scores[idx], result_meta)`. -/
structure SearchHit where
  doc : String
  path : String
  score : ℚ
  meta : ResultMeta
deriving DecidableEq, Repr

/-- The state a successfully constructed `Retriever` carries that the search
path reads (retriever.py lines 29-41).  The fitted TF-IDF matrix, the
tokenised corpus and the BM25 index are state of the external sklearn /
rank-bm25 collaborators; their per-query score vectors enter
`Retriever.search` as arguments. -/
structure Retriever where
  documents : List String
  doc_paths : List String
  max_results : ℕ
deriving DecidableEq, Repr

/-- `Retriever.__init__` (retriever.py lines 29-41).  With an empty document
list, `self.vectorizer.fit_transform(documents)` (line 35) raises
`ValueError: empty vocabulary` inside sklearn (and `BM25Okapi(self.tokenized_docs)`
on line 38 would divide the token count by the corpus size 0); construction
therefore fails on an empty corpus snapshot.  No check of any kind compares
`len(documents)` with `len(doc_paths)`. -/
def mkRetriever (documents doc_paths : List String) (max_results : ℕ) :
    Except String Retriever :=
  if documents = [] then
    Except.error ("ValueError: empty vocabulary; perhaps the documents only contain stop words")
  else
    Except.ok { documents := documents, doc_paths := doc_paths, max_results := max_results }

/-- Building one result tuple of `Retriever.search` (retriever.py lines
100-111) for a ranked index `idx`: numpy indexing of `combined_scores`,
`tfidf_similarities` and `bm25_scores` cannot fail for a ranked index, but
`self.documents[idx]` and `self.doc_paths[idx]` are plain list indexings that
raise `IndexError` when the lists are shorter than the score vectors. -/
def buildHit (documents doc_paths : List String) (combined t b : List ℚ)
    (idx : ℕ) : Except String SearchHit :=
  match pyIndex combined idx, pyIndex t idx, pyIndex b idx,
        pyIndex documents idx, pyIndex doc_paths idx with
  | Except.ok cs, Except.ok ts, Except.ok bs, Except.ok doc, Except.ok path =>
    Except.ok { doc := doc, path := path, score := cs,
                meta := { combined_score := cs, tfidf_score := ts, bm25_score := bs } }
  | Except.error e, _, _, _, _ => Except.error e
  | _, Except.error e, _, _, _ => Except.error e
  | _, _, Except.error e, _, _ => Except.error e
  | _, _, _, Except.error e, _ => Except.error e
  | _, _, _, _, Except.error e => Except.error e

/-- The result loop of `Retriever.search` (retriever.py lines 99-113),
appending one tuple per ranked index and propagating the first `IndexError`. -/
def buildResults (documents doc_paths : List String) (combined t b : List ℚ) :
    List ℕ → Except String (List SearchHit)
  | [] => Except.ok []
  | i :: is =>
    match buildHit documents doc_paths combined t b i with
    | Except.error e => Except.error e
    | Except.ok x =>
      match buildResults documents doc_paths combined t b is with
      | Except.error e => Except.error e
      | Except.ok rest => Except.ok (x :: rest)

/-- `Retriever.search` (retriever.py lines 54-113).  The external
collaborators' per-query outputs are arguments: `weights` is
`query_analysis.weights` from the query classifier (lines 60-65, read with
`dict.get` defaults 0.5), `tfidf_similarities` the cosine similarities of
line 69 and `bm25_scores` the BM25 scores of line 73, each one score per
corpus chunk in snapshot order.  `max(tfidf_similarities)` (line 76) and
`max(bm25_scores)` (line 77) raise `ValueError` on an empty score vector, and
the elementwise sum of line 83 raises a broadcast `ValueError` when the two
vectors have different (non-unit) lengths. -/
def Retriever.search (r : Retriever) (weights : List (String × ℚ))
    (tfidf_similarities bm25_scores : List ℚ) : Except String (List SearchHit) :=
  let sparse_weight := dictGet weights ("sparse") (1/2)
  let dense_weight := dictGet weights ("dense") (1/2)
  if tfidf_similarities = [] then
    Except.error ("ValueError: max() arg is an empty sequence")
  else if bm25_scores = [] then
    Except.error ("ValueError: max() arg is an empty sequence")
  else if tfidf_similarities.length ≠ bm25_scores.length then
    Except.error ("ValueError: operands could not be broadcast together")
  else
    let tfidf_norm := normalizeVec tfidf_similarities
    let bm25_norm := normalizeVec bm25_scores
    let combined_scores := combineWeighted dense_weight sparse_weight tfidf_norm bm25_norm
    let ranked_indices := rankedTop combined_scores r.max_results
    buildResults r.documents r.doc_paths combined_scores tfidf_similarities
      bm25_scores ranked_indices

/-- The combined score vector a call of `Retriever.search` ranks by
(retriever.py lines 75-83), as a function of the collaborator inputs: both
raw vectors normalised (lines 79-80) and then linearly combined with the
classifier weights read through their 0.5 defaults (lines 64-65, 83). -/
def searchCombined (weights : List (String × ℚ)) (t b : List ℚ) : List ℚ :=
  combineWeighted (dictGet weights ("dense") (1/2)) (dictGet weights ("sparse") (1/2))
    (normalizeVec t) (normalizeVec b)

/-- What `load_and_chunk_files` observes about one on-disk file: the
`os.stat` fields it reads (`st_mtime`, `st_ctime`, `st_size`, lines 156-158)
and the text that the extraction collaborator `read_text` (retriever.py lines
193-233, a pure I/O adapter over external format parsers, returning `""` on
failure) yields for the file.  Timestamps are rationals (epoch seconds). -/
structure FsEntry where
  mtime : ℚ
  ctime : ℚ
  size : ℕ
  text : String
deriving DecidableEq

/-- The file system at reconcile time: `some` stat-plus-extracted-text for a
path that exists, `none` for a path that does not (`file_path.exists()`,
line 152). -/
def FS : Type := String → Option FsEntry

/-- One value of the persisted cache record (spec §3 Cache Record): a Python
dict whose keys may be absent, hence the `Option` fields.  `created_at` keeps
the creation timestamp itself rather than its ISO-8601 rendering. -/
structure FileMeta where
  file_path : String
  chunks : Option (List String)
  num_chunks : Option ℕ
  last_modified : Option ℚ
  file_name : Option String
  size_kb : Option ℚ
  created_at : Option ℚ
deriving DecidableEq

/-- Python's banker's rounding to an integer (round-half-to-even). -/
def roundHalfEven (q : ℚ) : ℤ :=
  let f := ⌊q⌋
  let frac := q - f
  if frac < 1/2 then f
  else if frac > 1/2 then f + 1
  else if f % 2 = 0 then f else f + 1

/-- `round(x, 2)` as used for `size_kb` (retriever.py line 179). -/
def pyRound2 (q : ℚ) : ℚ := (roundHalfEven (q * 100) : ℚ) / 100

/-- `Path(p).name` (retriever.py line 177): the final path component. -/
def pyBasename (p : String) : String :=
  String.mk ((splitChars (fun c => c = '/') p.data).getLastD [])

/-- `read_and_chunk_file` (retriever.py lines 264-267) on an existing file:
`chunk_text(read_text(file_path))` with the Python defaults 500/50; the
extracted text is the one the file system associates with the file. -/
def read_and_chunk_file (st : FsEntry) : List String :=
  chunk_text st.text 500 50

/-- The body of the `for file_name in list(library.keys())` loop of
`load_and_chunk_files` (retriever.py lines 148-184) for one record entry.
Returns the rewritten entry, the chunks and source paths this file appends to
the flattened output, and whether this file set the `updated` flag.

* A missing file is skipped before anything is touched (lines 152-153).
* `needs_chunking` (lines 161-165) is `"chunks" not in file_meta or not
  file_meta["chunks"] or cached_mtime != current_mtime`; the falsy test makes
  an *empty* stored chunk list re-chunk as well.
* On a cache hit `chunks = file_meta["chunks"]` (line 174; the branch
  guarantees the key is present, so `Option.getD` is exact there).
* Lines 177-180 always rewrite `file_name`, `file_path` (via `resolve()`,
  modelled as the identity on the stored absolute path), `size_kb` and
  `created_at`, but never the chunk list or `last_modified`.
* The sources list gets `str(file_path)` — the path string the entry started
  with — once per chunk (line 184). -/
def processEntry (fs : FS) (entry : String × FileMeta) :
    (String × FileMeta) × List String × List String × Bool :=
  match fs entry.2.file_path with
  | none => (entry, [], [], false)
  | some st =>
    let file_meta := entry.2
    let current_mtime := st.mtime
    let needs_chunking : Prop :=
      file_meta.chunks = none ∨ file_meta.chunks = some [] ∨
        ¬ file_meta.last_modified = some current_mtime
    if needs_chunking then
      let chunks := read_and_chunk_file st
      let meta2 : FileMeta :=
        { file_path := file_meta.file_path
          chunks := some chunks
          num_chunks := some chunks.length
          last_modified := some current_mtime
          file_name := some (pyBasename file_meta.file_path)
          size_kb := some (pyRound2 ((st.size : ℚ) / 1024))
          created_at := some st.ctime }
      ((entry.1, meta2), chunks, List.replicate chunks.length file_meta.file_path, true)
    else
      let chunks := file_meta.chunks.getD []
      let meta2 : FileMeta :=
        { file_path := file_meta.file_path
          chunks := file_meta.chunks
          num_chunks := file_meta.num_chunks
          last_modified := file_meta.last_modified
          file_name := some (pyBasename file_meta.file_path)
          size_kb := some (pyRound2 ((st.size : ℚ) / 1024))
          created_at := some st.ctime }
      ((entry.1, meta2), chunks, List.replicate chunks.length file_meta.file_path, false)

/-- The outcome of `load_and_chunk_files` (retriever.py lines 140-190): the
rewritten record mapping (a key-ordered association list, mirroring the
insertion-ordered Python dict), the flattened chunk and source lists, and
`updated` — whether the function rewrote the backing store
(`json.dump`, lines 186-188). -/
structure ReconcileResult where
  library : List (String × FileMeta)
  all_chunks : List String
  all_sources : List String
  updated : Bool
deriving DecidableEq

/-- `Retriever.load_and_chunk_files` (retriever.py lines 140-190): iterate the
record entries in order, accumulate their contributions, and persist exactly
when some entry set `updated`. -/
def load_and_chunk_files (fs : FS) : List (String × FileMeta) → ReconcileResult
  | [] => { library := [], all_chunks := [], all_sources := [], updated := false }
  | e :: rest =>
    let r1 := processEntry fs e
    let r := load_and_chunk_files fs rest
    { library := r1.1 :: r.library
      all_chunks := r1.2.1 ++ r.all_chunks
      all_sources := r1.2.2.1 ++ r.all_sources
      updated := r1.2.2.2 || r.updated }

/-- Python `str.strip()` on a string. -/
def pyStrip (s : String) : String := String.mk (trimChars s.data)

/-- Python `"{:.2f}".format` as used for the relevance score in
`format_context` (llm.py line 18), modelled on the rational value. -/
def formatFixed2 (q : ℚ) : String :=
  let n := roundHalfEven (q * 100)
  toString (n / 100) ++ "." ++
    (if (n % 100).natAbs < 10 then "0" else "") ++ toString (n % 100).natAbs

/-- `format_context` (llm.py lines 13-19): number the first `max_chunks`
chunk/score pairs and render them into the prompt context block. -/
def format_context (chunks : List String) (scores : List ℚ) (max_chunks : ℕ) :
    String :=
  let pairs := List.zip (chunks.take max_chunks) (scores.take max_chunks)
  let pieces := pairs.enum.map (fun ie =>
    "**Source " ++ toString (ie.1 + 1) ++ " (Relevance: " ++ formatFixed2 ie.2.2
      ++ "):**\n" ++ pyStrip ie.2.1 ++ "\n\n")
  pyStrip (String.join pieces)

/-- The document-grounded prompt of `generate_answer` (llm.py lines 36-46). -/
def doc_prompt (context query : String) : String :=
  "**Role**: You are a document-based assistant. \n" ++
  "1. Base answers ONLY on the provided context below.\n" ++
  "2. If unsure, say \"I don't have enough information.\"\n" ++
  "3. Cite sources using [1], [2], etc.\n\n" ++
  "**Context**:\n" ++ context ++ "\n\n**Question**: " ++ query ++ "\n\n**Answer**:"

/-- The knowledge-augmented prompt of `generate_answer` (llm.py lines 48-58). -/
def web_prompt (context query : String) : String :=
  "You are an assistant who can answer questions using your own knowledge *and* optional context. \n" ++
  "If the context is useful, incorporate it. Otherwise, I would love it if you relied on your own knowledge. Cite any relevant local sources as [1].\n\n" ++
  "**Context**:\n" ++ context ++ "\n\n\n\n**Question**: " ++ query ++
  ". It is more than okay if none of the context is relevant. Tell me what you know.\n\n**Answer**:"

/-- `generate_answer` (llm.py lines 23-64).  `model_generate` is the external
Gemini collaborator `model.generate_content`, returning the response text or
raising; its exception is caught and rendered into the error string of
line 64.  `chunks[0]`/`scores[0]` on line 30 are plain indexings that raise
`IndexError` when taken on empty lists. -/
def generate_answer (model_generate : String → Except String String)
    (query : String) (chunks : List String) (scores : List ℚ)
    (search_web : Bool) : Except String String :=
  if chunks = [] ∧ search_web = false then
    Except.ok ("I couldn't find any relevant content to answer your question.")
  else do
    let context ←
      if chunks ≠ [] ∧ search_web = true then do
        let c0 ← pyIndex chunks 0
        let s0 ← pyIndex scores 0
        pure (format_context [c0] [s0] 1)
      else if chunks ≠ [] then pure (format_context chunks scores 5)
      else pure ("")
    let prompt :=
      if search_web = false then doc_prompt context query
      else web_prompt context query
    match model_generate prompt with
    | Except.ok t => Except.ok (pyStrip t)
    | Except.error e => Except.ok ("❌ Error generating answer: " ++ e)

/-! ## Helper lemmas -/

theorem foldl_max_le_init (l : List ℚ) (a : ℚ) : a ≤ l.foldl max a := by
  induction l generalizing a with
  | nil => simp
  | cons b t ih => exact le_trans (le_max_left a b) (ih (max a b))

theorem mem_le_foldl_max (l : List ℚ) (a x : ℚ) (hx : x ∈ l) :
    x ≤ l.foldl max a := by
  induction l generalizing a with
  | nil => cases hx
  | cons b t ih =>
    rcases List.mem_cons.mp hx with rfl | h
    · exact le_trans (le_max_right a x) (foldl_max_le_init t (max a x))
    · exact ih (max a b) h

theorem le_pymax_of_mem (v : List ℚ) (x : ℚ) (hx : x ∈ v) : x ≤ pymax v := by
  cases v with
  | nil => cases hx
  | cons a t =>
    rcases List.mem_cons.mp hx with rfl | h
    · exact foldl_max_le_init t x
    · exact mem_le_foldl_max t a x h

/-! ## Claim theorems -/

/-- Claim C10: with an empty retrieved chunk list and web search disabled,
`generate_answer` returns the fixed fallback string; the result does not
depend on the LLM collaborator `model_generate` at all (it is never called:
the function returns before any prompt is built). -/
theorem C10_empty_chunks_fallback (model_generate : String → Except String String)
    (query : String) (scores : List ℚ) :
    generate_answer model_generate query [] scores false =
      Except.ok ("I couldn't find any relevant content to answer your question.") := by
  simp [generate_answer]

/-- Claim C1 (evaluated at the failing input): the claim says search on an
empty corpus snapshot returns an empty result list without error, but the
code cannot even build the index — `Retriever.__init__` on zero chunks raises
inside `fit_transform` (and would divide by zero in `BM25Okapi`), and the
search path's `max(tfidf_similarities)` raises on an empty score vector. -/
theorem C1_empty_corpus_raises :
    mkRetriever [] [] 5 =
      Except.error ("ValueError: empty vocabulary; perhaps the documents only contain stop words") ∧
    Retriever.search { documents := [], doc_paths := [], max_results := 5 } [] [] [] =
      Except.error ("ValueError: max() arg is an empty sequence") :=
  ⟨rfl, rfl⟩

/-- Claim C8 (evaluated at the failing input): the claim says a chunk list and
source-path list of different lengths are rejected by an invariant check at
index-build time; in fact `Retriever.__init__` performs no such check —
construction succeeds with 1 document and 0 paths, and the mismatch surfaces
only at scoring time as an `IndexError` from `self.doc_paths[idx]`. -/
theorem C8_no_length_invariant_check :
    mkRetriever ["alpha beta"] [] 5 =
      Except.ok { documents := ["alpha beta"], doc_paths := [], max_results := 5 } ∧
    Retriever.search { documents := ["alpha beta"], doc_paths := [], max_results := 5 }
        [] [1] [1] =
      Except.error ("IndexError: list index out of range") :=
  ⟨rfl, rfl⟩

/-- Claim C9: a tracked file whose path no longer exists is skipped: its
record entry is returned untouched, it contributes nothing to the flattened
chunk/source output, it does not set the `updated` flag, and no error is
raised (the loop body is total on this path). -/
theorem C9_missing_file_skipped (fs : FS) (name : String) (meta : FileMeta)
    (lib : List (String × FileMeta)) (h : fs meta.file_path = none) :
    processEntry fs (name, meta) = ((name, meta), [], [], false) ∧
    (load_and_chunk_files fs ((name, meta) :: lib)).library =
      (name, meta) :: (load_and_chunk_files fs lib).library ∧
    (load_and_chunk_files fs ((name, meta) :: lib)).all_chunks =
      (load_and_chunk_files fs lib).all_chunks ∧
    (load_and_chunk_files fs ((name, meta) :: lib)).all_sources =
      (load_and_chunk_files fs lib).all_sources ∧
    (load_and_chunk_files fs ((name, meta) :: lib)).updated =
      (load_and_chunk_files fs lib).updated := by
  have hp : processEntry fs (name, meta) = ((name, meta), [], [], false) := by
    unfold processEntry
    rw [h]
  refine ⟨hp, ?_, ?_, ?_, ?_⟩ <;> simp [load_and_chunk_files, hp]

theorem C9_missing_file_skipped_witness :
    processEntry (fun _ => none)
        ("gone.txt", ⟨"/gone.txt", none, none, none, none, none, none⟩) =
      (("gone.txt", ⟨"/gone.txt", none, none, none, none, none, none⟩), [], [], false) ∧
    (load_and_chunk_files (fun _ => none)
        [("gone.txt", ⟨"/gone.txt", none, none, none, none, none, none⟩)]).library =
      ("gone.txt", (⟨"/gone.txt", none, none, none, none, none, none⟩ : FileMeta)) ::
        (load_and_chunk_files (fun _ => none) []).library ∧
    (load_and_chunk_files (fun _ => none)
        [("gone.txt", ⟨"/gone.txt", none, none, none, none, none, none⟩)]).all_chunks =
      (load_and_chunk_files (fun _ => none) []).all_chunks ∧
    (load_and_chunk_files (fun _ => none)
        [("gone.txt", ⟨"/gone.txt", none, none, none, none, none, none⟩)]).all_sources =
      (load_and_chunk_files (fun _ => none) []).all_sources ∧
    (load_and_chunk_files (fun _ => none)
        [("gone.txt", ⟨"/gone.txt", none, none, none, none, none, none⟩)]).updated =
      (load_and_chunk_files (fun _ => none) []).updated :=
  C9_missing_file_skipped (fun _ => none) ("gone.txt")
    ⟨"/gone.txt", none, none, none, none, none, none⟩ [] rfl

/-- Claim C5 counterexample: on the single paragraph `"a b c d"` (4 words)
with `chunk_size = 3 < 4` and `overlap = 1 < 3`, `chunk_text` does NOT emit
exactly one oversized chunk: closing the still-empty buffer first appends an
empty chunk, so the result has two chunks, the first of them `""`. -/
theorem C5_oversized_first_paragraph_cex :
    chunk_text ("a b c d") 3 1 = ["", "a b c d"] ∧
    ¬ (chunk_text ("a b c d") 3 1).length = 1 := by
  constructor <;> decide

/-- Claim C5 (amended): for an input that is a single paragraph with at least
one word, the paragraph is never split — if it is longer than `chunk_size` it
appears whole as one oversized chunk, but preceded by an empty chunk flushed
from the empty buffer; if it fits, the final buffer is flushed as the single
trailing chunk even when shorter than `chunk_size`.  (Determinism is inherent:
`chunk_text` is a pure function of its arguments.) -/
theorem C5_single_paragraph_chunking (text p : String) (chunk_size overlap : ℕ)
    (hp : splitParas text = [p]) (hne : ¬ pySplitWs p = []) :
    (chunk_size < (pySplitWs p).length →
      chunk_text text chunk_size overlap =
        ["", String.intercalate (" ") (pySplitWs p)]) ∧
    ((pySplitWs p).length ≤ chunk_size →
      chunk_text text chunk_size overlap =
        [String.intercalate (" ") (pySplitWs p)]) := by
  have hov : (if overlap > 0 then List.drop (List.length ([] : List String) - overlap) [] else []) = ([] : List String) := by
    split <;> simp
  constructor
  · intro hlt
    have hc : ¬ (0 + (pySplitWs p).length ≤ chunk_size) := by omega
    unfold chunk_text
    rw [hp]
    simp only [List.foldl]
    unfold chunkStep
    rw [if_neg hne, if_neg hc, hov]
    simp [hne]
    rfl
  · intro hle
    have hc : 0 + (pySplitWs p).length ≤ chunk_size := by omega
    unfold chunk_text
    rw [hp]
    simp only [List.foldl]
    unfold chunkStep
    rw [if_neg hne, if_pos hc]
    simp [hne]

theorem C5_single_paragraph_chunking_witness :
    (3 < (pySplitWs ("a b c d")).length →
      chunk_text ("a b c d") 3 1 =
        ["", String.intercalate (" ") (pySplitWs ("a b c d"))]) ∧
    ((pySplitWs ("a b c d")).length ≤ 3 →
      chunk_text ("a b c d") 3 1 =
        [String.intercalate (" ") (pySplitWs ("a b c d"))]) :=
  C5_single_paragraph_chunking ("a b c d") ("a b c d") 3 1 (by decide) (by decide)

/-- Claim C4: score normalisation divides a vector by its own maximum unless
that maximum is 0, in which case it divides by 1 and leaves the vector
unchanged; for raw score vectors that are non-negative (the §4.4 contract for
cosine similarities and BM25 scores) an all-zero vector normalises to
all-zero, and every normalised entry lies in [0, 1] — no division by zero is
reachable. -/
theorem C4_normalization_bounded (v : List ℚ) (y : ℚ)
    (hv : ∀ x ∈ v, 0 ≤ x) :
    (pymax v = 0 → normalizeVec v = v) ∧
    ((∀ x ∈ v, x = 0) → ∀ z ∈ normalizeVec v, z = 0) ∧
    (y ∈ normalizeVec v → 0 ≤ y ∧ y ≤ 1) := by
  refine ⟨?_, ?_, ?_⟩
  · intro h0
    unfold normalizeVec
    rw [h0]
    norm_num
  · intro hz z hzmem
    simp only [normalizeVec, List.mem_map] at hzmem
    obtain ⟨x, hx, hxz⟩ := hzmem
    rw [hz x hx] at hxz
    simp at hxz
    exact hxz.symm
  · intro hy
    simp only [normalizeVec, List.mem_map] at hy
    obtain ⟨x, hx, hxy⟩ := hy
    subst hxy
    by_cases hmax : pymax v > 0
    · rw [if_pos hmax]
      refine ⟨div_nonneg (hv x hx) (le_of_lt hmax), ?_⟩
      rw [div_le_one hmax]
      exact le_pymax_of_mem v x hx
    · rw [if_neg hmax]
      have hx0 : x = 0 :=
        le_antisymm (le_trans (le_pymax_of_mem v x hx) (not_lt.mp hmax)) (hv x hx)
      rw [hx0]
      norm_num

theorem C4_normalization_bounded_witness :
    (pymax [(2:ℚ), 1, 0] = 0 → normalizeVec [2, 1, 0] = [2, 1, 0]) ∧
    ((∀ x ∈ [(2:ℚ), 1, 0], x = 0) → ∀ z ∈ normalizeVec [2, 1, 0], z = 0) ∧
    ((1:ℚ)/2 ∈ normalizeVec [2, 1, 0] → 0 ≤ (1:ℚ)/2 ∧ (1:ℚ)/2 ≤ 1) :=
  C4_normalization_bounded [2, 1, 0] (1/2) (by norm_num)

theorem search_unfold (r : Retriever) (w : List (String × ℚ)) (t b : List ℚ)
    (ht : ¬ t = []) (hb : ¬ b = []) (hl : t.length = b.length) :
    Retriever.search r w t b =
      buildResults r.documents r.doc_paths (searchCombined w t b) t b
        (rankedTop (searchCombined w t b) r.max_results) := by
  simp only [Retriever.search, searchCombined]
  rw [if_neg ht, if_neg hb, if_neg (fun hh => hh hl)]

theorem search_ok_inv (r : Retriever) (w : List (String × ℚ)) (t b : List ℚ)
    (res : List SearchHit) (hok : Retriever.search r w t b = Except.ok res) :
    ¬ t = [] ∧ ¬ b = [] ∧ t.length = b.length ∧
    buildResults r.documents r.doc_paths (searchCombined w t b) t b
      (rankedTop (searchCombined w t b) r.max_results) = Except.ok res := by
  by_cases ht : t = []
  · subst ht
    simp [Retriever.search] at hok
  by_cases hb : b = []
  · subst hb
    simp [Retriever.search, ht] at hok
  by_cases hl : t.length = b.length
  · exact ⟨ht, hb, hl, by rw [← search_unfold r w t b ht hb hl]; exact hok⟩
  · exfalso
    simp only [Retriever.search] at hok
    rw [if_neg ht, if_neg hb, if_pos hl] at hok
    exact Except.noConfusion hok

theorem mem_rankedTop_lt (v : List ℚ) (k i : ℕ) (hi : i ∈ rankedTop v k) :
    i < v.length := by
  have h1 : i ∈ (argsortAsc v).reverse := List.mem_of_mem_take hi
  have h2 : i ∈ argsortAsc v := List.mem_reverse.mp h1
  have h3 : i ∈ List.range v.length :=
    ((List.perm_insertionSort (idxLe v) (List.range v.length)).mem_iff).mp h2
  exact List.mem_range.mp h3

theorem pairwise_rankedTop (v : List ℚ) (k : ℕ) :
    (rankedTop v k).Pairwise (fun i j => idxLe v j i) := by
  have hs : (argsortAsc v).Pairwise (idxLe v) :=
    List.sorted_insertionSort (idxLe v) (List.range v.length)
  have hr : ((argsortAsc v).reverse).Pairwise (fun i j => idxLe v j i) :=
    (List.pairwise_reverse).mpr hs
  exact List.Pairwise.sublist (List.take_sublist k ((argsortAsc v).reverse)) hr

theorem length_rankedTop_le (v : List ℚ) (k : ℕ) : (rankedTop v k).length ≤ k := by
  unfold rankedTop
  rw [List.length_take]
  exact min_le_left k _

theorem buildHit_ok_inv (documents doc_paths : List String) (combined t b : List ℚ)
    (i : ℕ) (x : SearchHit)
    (hh : buildHit documents doc_paths combined t b i = Except.ok x) :
    combined.get? i = some x.score ∧ t.get? i = some x.meta.tfidf_score ∧
    b.get? i = some x.meta.bm25_score ∧ documents.get? i = some x.doc ∧
    doc_paths.get? i = some x.path ∧ x.meta.combined_score = x.score := by
  unfold buildHit at hh
  unfold pyIndex at hh
  rcases hc : combined.get? i with _ | cs <;> rw [hc] at hh <;>
    rcases h1 : t.get? i with _ | ts <;> rw [h1] at hh <;>
    rcases h2 : b.get? i with _ | bs <;> rw [h2] at hh <;>
    rcases h3 : documents.get? i with _ | doc <;> rw [h3] at hh <;>
    rcases h4 : doc_paths.get? i with _ | path <;> rw [h4] at hh <;>
    simp only [] at hh
  all_goals first
    | exact Except.noConfusion hh
    | (cases hh; exact ⟨rfl, rfl, rfl, rfl, rfl, rfl⟩)

theorem buildResults_ok_inv (documents doc_paths : List String)
    (combined t b : List ℚ) (idxs : List ℕ) :
    ∀ res : List SearchHit,
      buildResults documents doc_paths combined t b idxs = Except.ok res →
      List.Forall₂
        (fun i x => buildHit documents doc_paths combined t b i = Except.ok x)
        idxs res := by
  induction idxs with
  | nil =>
    intro res h
    unfold buildResults at h
    cases h
    exact List.Forall₂.nil
  | cons i is ih =>
    intro res h
    unfold buildResults at h
    rcases hx : buildHit documents doc_paths combined t b i with e | x <;>
      rw [hx] at h
    · exact Except.noConfusion h
    rcases hr : buildResults documents doc_paths combined t b is with e | rest <;>
      rw [hr] at h
    · exact Except.noConfusion h
    cases h
    exact List.Forall₂.cons hx (ih rest hr)

theorem forall₂_mem_right {α β : Type} {R : α → β → Prop} {l1 : List α}
    {l2 : List β} (h : List.Forall₂ R l1 l2) :
    ∀ x ∈ l2, ∃ i ∈ l1, R i x := by
  induction h with
  | nil => intro x hx; cases hx
  | cons hr _ ih =>
    intro x hx
    rcases List.mem_cons.mp hx with rfl | hx'
    · exact ⟨_, List.mem_cons_self _ _, hr⟩
    · obtain ⟨i, hi, hri⟩ := ih x hx'
      exact ⟨i, List.mem_cons_of_mem _ hi, hri⟩

theorem get?_combineWeighted (dw sw : ℚ) (tN bN : List ℚ) (i : ℕ) (c : ℚ)
    (hc : (combineWeighted dw sw tN bN).get? i = some c) :
    c = dw * tN.getD i 0 + sw * bN.getD i 0 := by
  unfold combineWeighted at hc
  rw [List.get?_zipWith'] at hc
  rcases h1 : tN.get? i with _ | x <;> rw [h1] at hc
  · exact Option.noConfusion hc
  rcases h2 : bN.get? i with _ | y <;> rw [h2] at hc
  · exact Option.noConfusion hc
  simp only [Option.map_some', Option.bind_some] at hc
  cases hc
  rw [List.getD_eq_getElem?_getD, List.getD_eq_getElem?_getD,
    ← List.get?_eq_getElem?, ← List.get?_eq_getElem?, h1, h2]
  rfl

theorem search_tie_eval :
    Retriever.search
        { documents := ["alpha beta", "alpha beta"], doc_paths := ["p0", "p1"],
          max_results := 5 } [] [1, 1] [1, 1] =
      Except.ok
        [{ doc := "alpha beta", path := "p1", score := 1,
           meta := { combined_score := 1, tfidf_score := 1, bm25_score := 1 } },
         { doc := "alpha beta", path := "p0", score := 1,
           meta := { combined_score := 1, tfidf_score := 1, bm25_score := 1 } }] := by
  have hsc : searchCombined [] [1, 1] [1, 1] = [1, 1] := by
    norm_num [searchCombined, combineWeighted, normalizeVec, pymax, dictGet]
  rw [search_unfold _ _ _ _ (by simp) (by simp) rfl, hsc]
  rfl

/-- Claim C2 counterexample: on a snapshot of two identical chunks (to which
any content-determined scorer gives identical raw scores, here 1 and 1),
search returns the chunk at snapshot index 1 (source `"p1"`) BEFORE the chunk
at snapshot index 0 (source `"p0"`).  At this two-element array size numpy's
argsort runs its stable insertion sort, so the embedding is exact here:
`argsort` of the tied pair is `[0, 1]`, and `[::-1]` returns index 1 first —
not the original snapshot order the claim states. -/
theorem C2_stable_tie_cex :
    Retriever.search
        { documents := ["alpha beta", "alpha beta"], doc_paths := ["p0", "p1"],
          max_results := 5 } [] [1, 1] [1, 1] =
      Except.ok
        [{ doc := "alpha beta", path := "p1", score := 1,
           meta := { combined_score := 1, tfidf_score := 1, bm25_score := 1 } },
         { doc := "alpha beta", path := "p0", score := 1,
           meta := { combined_score := 1, tfidf_score := 1, bm25_score := 1 } }] ∧
    ¬ ("p1" = "p0") :=
  ⟨search_tie_eval, by decide⟩

theorem pairwise_of_forall₂ {α β : Type} {R : α → β → Prop} {S : α → α → Prop}
    {T : β → β → Prop} (hc : ∀ a b x y, R a x → R b y → S a b → T x y) :
    ∀ {l1 : List α} {l2 : List β}, List.Forall₂ R l1 l2 →
      l1.Pairwise S → l2.Pairwise T := by
  intro l1 l2 hf
  induction hf with
  | nil => intro _; exact List.Pairwise.nil
  | cons h1 h2 ih =>
    intro hp
    rw [List.pairwise_cons] at hp ⊢
    obtain ⟨hhead, htail⟩ := hp
    refine ⟨?_, ih htail⟩
    intro y hy
    obtain ⟨b, hb, hby⟩ := forall₂_mem_right h2 y hy
    exact hc _ b _ y h1 hby (hhead b hb)

/-- Claim C2 (amended): search ranks results by descending (non-increasing)
combined score, and repeated calls are deterministic (the embedded search is
a pure function of the index state and the collaborator inputs); but ties are
NOT broken by original snapshot order: at the two-identical-chunk input —
an array size where numpy's argsort runs its stable insertion sort, so the
embedding is exact — the chunk later in the snapshot is returned first.  The
descending-score conjunct holds for every valid sorting permutation that
`argsort()` may return, so it is a universal fact about the program even
though numpy's default sort is unstable on larger tied arrays; the order
within a tie class is asserted only at the concrete input. -/
theorem C2_ranking_descending_unstable_ties (r : Retriever)
    (weights : List (String × ℚ)) (t b : List ℚ) (res : List SearchHit)
    (hok : Retriever.search r weights t b = Except.ok res) :
    res.Pairwise (fun x y => y.score ≤ x.score) ∧
    Retriever.search
        { documents := ["alpha beta", "alpha beta"], doc_paths := ["p0", "p1"],
          max_results := 5 } [] [1, 1] [1, 1] =
      Except.ok
        [{ doc := "alpha beta", path := "p1", score := 1,
           meta := { combined_score := 1, tfidf_score := 1, bm25_score := 1 } },
         { doc := "alpha beta", path := "p0", score := 1,
           meta := { combined_score := 1, tfidf_score := 1, bm25_score := 1 } }] := by
  obtain ⟨ht, hb, hl, hbuild⟩ := search_ok_inv r weights t b res hok
  have hf := buildResults_ok_inv r.documents r.doc_paths (searchCombined weights t b)
    t b (rankedTop (searchCombined weights t b) r.max_results) res hbuild
  have hp := pairwise_rankedTop (searchCombined weights t b) r.max_results
  refine ⟨?_, search_tie_eval⟩
  refine pairwise_of_forall₂ ?_ hf hp
  intro i j x y hix hjy hij
  obtain ⟨hci, _, _, _, _, _⟩ :=
    buildHit_ok_inv r.documents r.doc_paths (searchCombined weights t b) t b i x hix
  obtain ⟨hcj, _, _, _, _, _⟩ :=
    buildHit_ok_inv r.documents r.doc_paths (searchCombined weights t b) t b j y hjy
  have hxi : (searchCombined weights t b).getD i 0 = x.score := by
    rw [List.getD_eq_getElem?_getD, ← List.get?_eq_getElem?, hci]
    rfl
  have hyj : (searchCombined weights t b).getD j 0 = y.score := by
    rw [List.getD_eq_getElem?_getD, ← List.get?_eq_getElem?, hcj]
    rfl
  rcases hij with hlt | ⟨heq, _⟩
  · rw [hxi, hyj] at hlt
    exact le_of_lt hlt
  · rw [hxi, hyj] at heq
    exact le_of_eq heq

theorem C2_ranking_descending_unstable_ties_witness :
    ([{ doc := "alpha beta", path := "p1", score := 1,
        meta := { combined_score := 1, tfidf_score := 1, bm25_score := 1 } },
      { doc := "alpha beta", path := "p0", score := 1,
        meta := { combined_score := 1, tfidf_score := 1, bm25_score := 1 } }] :
      List SearchHit).Pairwise (fun x y => y.score ≤ x.score) ∧
    Retriever.search
        { documents := ["alpha beta", "alpha beta"], doc_paths := ["p0", "p1"],
          max_results := 5 } [] [1, 1] [1, 1] =
      Except.ok
        [{ doc := "alpha beta", path := "p1", score := 1,
           meta := { combined_score := 1, tfidf_score := 1, bm25_score := 1 } },
         { doc := "alpha beta", path := "p0", score := 1,
           meta := { combined_score := 1, tfidf_score := 1, bm25_score := 1 } }] :=
  C2_ranking_descending_unstable_ties
    { documents := ["alpha beta", "alpha beta"], doc_paths := ["p0", "p1"],
      max_results := 5 } [] [1, 1] [1, 1] _ search_tie_eval

/-- Claim C7: for every returned tuple there is a snapshot index i at which its
combined score equals `w_dense * tfidf_norm[i] + w_sparse * bm25_norm[i]`, the
weights being the classifier's read through `dict.get` defaults of 0.5 each
(on an empty weight dictionary both default to 1/2); at most `max_results` tuples
are returned; and every tuple carries both raw per-signal scores (`tfidf` and
`bm25` at the same index) alongside the combined score. -/
theorem C7_weighted_combination_and_cap (r : Retriever)
    (weights : List (String × ℚ)) (t b : List ℚ) (res : List SearchHit)
    (hok : Retriever.search r weights t b = Except.ok res) :
    res.length ≤ r.max_results ∧
    dictGet [] ("dense") (1/2) = 1/2 ∧
    dictGet [] ("sparse") (1/2) = 1/2 ∧
    ∀ x ∈ res, ∃ i,
      (searchCombined weights t b).get? i = some x.score ∧
      x.score = dictGet weights ("dense") (1/2) * (normalizeVec t).getD i 0 +
                dictGet weights ("sparse") (1/2) * (normalizeVec b).getD i 0 ∧
      x.meta.combined_score = x.score ∧
      t.get? i = some x.meta.tfidf_score ∧
      b.get? i = some x.meta.bm25_score ∧
      r.documents.get? i = some x.doc ∧
      r.doc_paths.get? i = some x.path := by
  obtain ⟨ht, hb, hl, hbuild⟩ := search_ok_inv r weights t b res hok
  have hf := buildResults_ok_inv r.documents r.doc_paths (searchCombined weights t b)
    t b (rankedTop (searchCombined weights t b) r.max_results) res hbuild
  refine ⟨?_, rfl, rfl, ?_⟩
  · rw [← hf.length_eq]
    exact length_rankedTop_le (searchCombined weights t b) r.max_results
  · intro x hx
    obtain ⟨i, _, hhit⟩ := forall₂_mem_right hf x hx
    obtain ⟨hc, ht', hb', hd', hp', hm'⟩ :=
      buildHit_ok_inv r.documents r.doc_paths (searchCombined weights t b) t b i x hhit
    exact ⟨i, hc,
      get?_combineWeighted (dictGet weights ("dense") (1/2))
        (dictGet weights ("sparse") (1/2)) (normalizeVec t) (normalizeVec b) i
        x.score hc,
      hm', ht', hb', hd', hp'⟩

theorem C7_weighted_combination_and_cap_witness :
    ([{ doc := "alpha beta", path := "p1", score := 1,
        meta := { combined_score := 1, tfidf_score := 1, bm25_score := 1 } },
      { doc := "alpha beta", path := "p0", score := 1,
        meta := { combined_score := 1, tfidf_score := 1, bm25_score := 1 } }] :
        List SearchHit).length ≤ 5 ∧
    dictGet [] ("dense") (1/2) = 1/2 ∧
    dictGet [] ("sparse") (1/2) = 1/2 ∧
    ∀ x ∈ ([{ doc := "alpha beta", path := "p1", score := 1,
              meta := { combined_score := 1, tfidf_score := 1, bm25_score := 1 } },
            { doc := "alpha beta", path := "p0", score := 1,
              meta := { combined_score := 1, tfidf_score := 1, bm25_score := 1 } }] :
        List SearchHit), ∃ i,
      (searchCombined [] [1, 1] [1, 1]).get? i = some x.score ∧
      x.score = dictGet [] ("dense") (1/2) * (normalizeVec [1, 1]).getD i 0 +
                dictGet [] ("sparse") (1/2) * (normalizeVec [1, 1]).getD i 0 ∧
      x.meta.combined_score = x.score ∧
      ([1, 1] : List ℚ).get? i = some x.meta.tfidf_score ∧
      ([1, 1] : List ℚ).get? i = some x.meta.bm25_score ∧
      (["alpha beta", "alpha beta"] : List String).get? i = some x.doc ∧
      (["p0", "p1"] : List String).get? i = some x.path :=
  C7_weighted_combination_and_cap
    { documents := ["alpha beta", "alpha beta"], doc_paths := ["p0", "p1"],
      max_results := 5 } [] [1, 1] [1, 1] _ search_tie_eval

/-- Claim C3: for a tracked file that exists on disk, the reconcile loop body
re-extracts and re-chunks exactly when the record has no chunk list (or an
empty one) or the stored modification time differs from the current one — in
that case the stored chunk list, chunk count and modification time are
replaced, the `updated` flag is set, and the fresh chunks flow to the output;
when the stored modification time matches and chunks are present, the stored
chunks are returned verbatim in the output — the result does not depend on
the file's text at all (no re-extraction, no re-chunking), the stored chunk
list and modification time are untouched, and the `updated` flag stays
clear.  (Lines 177-180 always refresh `file_name`, `size_kb` and
`created_at`, on both paths.) -/
theorem C3_cache_freshness (fs : FS) (st : FsEntry) (name : String)
    (meta : FileMeta) (h : fs meta.file_path = some st) :
    (meta.chunks = none ∨ meta.chunks = some [] ∨
        ¬ meta.last_modified = some st.mtime →
      processEntry fs (name, meta) =
        ((name,
          { file_path := meta.file_path
            chunks := some (read_and_chunk_file st)
            num_chunks := some (read_and_chunk_file st).length
            last_modified := some st.mtime
            file_name := some (pyBasename meta.file_path)
            size_kb := some (pyRound2 ((st.size : ℚ) / 1024))
            created_at := some st.ctime }),
         read_and_chunk_file st,
         List.replicate (read_and_chunk_file st).length meta.file_path, true)) ∧
    (∀ cs : List String, meta.chunks = some cs → ¬ cs = [] →
      meta.last_modified = some st.mtime →
      processEntry fs (name, meta) =
        ((name,
          { file_path := meta.file_path
            chunks := some cs
            num_chunks := meta.num_chunks
            last_modified := meta.last_modified
            file_name := some (pyBasename meta.file_path)
            size_kb := some (pyRound2 ((st.size : ℚ) / 1024))
            created_at := some st.ctime }),
         cs, List.replicate cs.length meta.file_path, false)) := by
  constructor
  · intro hneeds
    unfold processEntry
    rw [h]
    dsimp only
    rw [if_pos hneeds]
  · intro cs hcs hne hlm
    unfold processEntry
    rw [h]
    dsimp only
    have hn : ¬ (meta.chunks = none ∨ meta.chunks = some [] ∨
        ¬ meta.last_modified = some st.mtime) := by
      push_neg
      exact ⟨by simp [hcs], by simp [hcs, hne], hlm⟩
    rw [if_neg hn]
    simp [hcs]

theorem C3_cache_freshness_witness :
    ((⟨"/a.txt", some ["cached chunk"], some 1, some 2, none, none, none⟩ :
        FileMeta).chunks = none ∨
     (⟨"/a.txt", some ["cached chunk"], some 1, some 2, none, none, none⟩ :
        FileMeta).chunks = some [] ∨
     ¬ (⟨"/a.txt", some ["cached chunk"], some 1, some 2, none, none, none⟩ :
        FileMeta).last_modified = some (⟨2, 1, 2048, "hello world"⟩ : FsEntry).mtime →
      processEntry
          (fun p => if p = "/a.txt" then some ⟨2, 1, 2048, "hello world"⟩ else none)
          ("a.txt", ⟨"/a.txt", some ["cached chunk"], some 1, some 2, none, none, none⟩) =
        (("a.txt",
          { file_path := "/a.txt"
            chunks := some (read_and_chunk_file ⟨2, 1, 2048, "hello world"⟩)
            num_chunks := some (read_and_chunk_file ⟨2, 1, 2048, "hello world"⟩).length
            last_modified := some (⟨2, 1, 2048, "hello world"⟩ : FsEntry).mtime
            file_name := some (pyBasename ("/a.txt"))
            size_kb := some (pyRound2 (((⟨2, 1, 2048, "hello world"⟩ : FsEntry).size : ℚ) / 1024))
            created_at := some (⟨2, 1, 2048, "hello world"⟩ : FsEntry).ctime }),
         read_and_chunk_file ⟨2, 1, 2048, "hello world"⟩,
         List.replicate (read_and_chunk_file ⟨2, 1, 2048, "hello world"⟩).length ("/a.txt"),
         true)) ∧
    (∀ cs : List String,
      (⟨"/a.txt", some ["cached chunk"], some 1, some 2, none, none, none⟩ :
        FileMeta).chunks = some cs → ¬ cs = [] →
      (⟨"/a.txt", some ["cached chunk"], some 1, some 2, none, none, none⟩ :
        FileMeta).last_modified = some (⟨2, 1, 2048, "hello world"⟩ : FsEntry).mtime →
      processEntry
          (fun p => if p = "/a.txt" then some ⟨2, 1, 2048, "hello world"⟩ else none)
          ("a.txt", ⟨"/a.txt", some ["cached chunk"], some 1, some 2, none, none, none⟩) =
        (("a.txt",
          { file_path := "/a.txt"
            chunks := some cs
            num_chunks := some 1
            last_modified := some 2
            file_name := some (pyBasename ("/a.txt"))
            size_kb := some (pyRound2 (((⟨2, 1, 2048, "hello world"⟩ : FsEntry).size : ℚ) / 1024))
            created_at := some (⟨2, 1, 2048, "hello world"⟩ : FsEntry).ctime }),
         cs, List.replicate cs.length ("/a.txt"), false)) :=
  C3_cache_freshness
    (fun p => if p = "/a.txt" then some ⟨2, 1, 2048, "hello world"⟩ else none)
    ⟨2, 1, 2048, "hello world"⟩ ("a.txt")
    ⟨"/a.txt", some ["cached chunk"], some 1, some 2, none, none, none⟩ rfl

theorem processEntry_skip (fs : FS) (e : String × FileMeta)
    (h : fs e.2.file_path = none) : processEntry fs e = (e, [], [], false) := by
  unfold processEntry
  rw [h]

theorem processEntry_rechunk (fs : FS) (name : String) (meta : FileMeta)
    (st : FsEntry) (h : fs meta.file_path = some st)
    (hneeds : meta.chunks = none ∨ meta.chunks = some [] ∨
      ¬ meta.last_modified = some st.mtime) :
    processEntry fs (name, meta) =
      ((name,
        { file_path := meta.file_path
          chunks := some (read_and_chunk_file st)
          num_chunks := some (read_and_chunk_file st).length
          last_modified := some st.mtime
          file_name := some (pyBasename meta.file_path)
          size_kb := some (pyRound2 ((st.size : ℚ) / 1024))
          created_at := some st.ctime }),
       read_and_chunk_file st,
       List.replicate (read_and_chunk_file st).length meta.file_path, true) := by
  unfold processEntry
  rw [h]
  dsimp only
  rw [if_pos hneeds]

theorem processEntry_cache_hit (fs : FS) (name : String) (meta : FileMeta)
    (st : FsEntry) (cs : List String) (h : fs meta.file_path = some st)
    (hcs : meta.chunks = some cs) (hne : ¬ cs = [])
    (hlm : meta.last_modified = some st.mtime) :
    processEntry fs (name, meta) =
      ((name,
        { file_path := meta.file_path
          chunks := some cs
          num_chunks := meta.num_chunks
          last_modified := meta.last_modified
          file_name := some (pyBasename meta.file_path)
          size_kb := some (pyRound2 ((st.size : ℚ) / 1024))
          created_at := some st.ctime }),
       cs, List.replicate cs.length meta.file_path, false) := by
  unfold processEntry
  rw [h]
  dsimp only
  have hn : ¬ (meta.chunks = none ∨ meta.chunks = some [] ∨
      ¬ meta.last_modified = some st.mtime) := by
    push_neg
    exact ⟨by simp [hcs], by simp [hcs, hne], hlm⟩
  rw [if_neg hn]
  simp [hcs]

theorem processEntry_idem (fs : FS) (e : String × FileMeta) :
    (processEntry fs (processEntry fs e).1).2.1 = (processEntry fs e).2.1 ∧
    (processEntry fs (processEntry fs e).1).2.2.1 = (processEntry fs e).2.2.1 ∧
    ((∀ st : FsEntry, fs (processEntry fs e).1.2.file_path = some st →
        ¬ (processEntry fs e).1.2.chunks = some []) →
      (processEntry fs (processEntry fs e).1).2.2.2 = false) := by
  obtain ⟨name, meta⟩ := e
  rcases hfs : fs meta.file_path with _ | st
  · have he : processEntry fs (name, meta) = ((name, meta), [], [], false) :=
      processEntry_skip fs (name, meta) hfs
    rw [he]
    dsimp only
    rw [he]
    exact ⟨rfl, rfl, fun _ => rfl⟩
  · by_cases hneeds : meta.chunks = none ∨ meta.chunks = some [] ∨
        ¬ meta.last_modified = some st.mtime
    · have h1 := processEntry_rechunk fs name meta st hfs hneeds
      rw [h1]
      dsimp only
      by_cases hcse : read_and_chunk_file st = []
      · have h2 := processEntry_rechunk fs name
          { file_path := meta.file_path
            chunks := some (read_and_chunk_file st)
            num_chunks := some (read_and_chunk_file st).length
            last_modified := some st.mtime
            file_name := some (pyBasename meta.file_path)
            size_kb := some (pyRound2 ((st.size : ℚ) / 1024))
            created_at := some st.ctime } st hfs
          (by right; left; rw [hcse])
        rw [h2]
        refine ⟨rfl, rfl, fun hyp => ?_⟩
        exfalso
        exact hyp st hfs (congrArg some hcse)
      · have h2 := processEntry_cache_hit fs name
          { file_path := meta.file_path
            chunks := some (read_and_chunk_file st)
            num_chunks := some (read_and_chunk_file st).length
            last_modified := some st.mtime
            file_name := some (pyBasename meta.file_path)
            size_kb := some (pyRound2 ((st.size : ℚ) / 1024))
            created_at := some st.ctime } st (read_and_chunk_file st) hfs rfl hcse rfl
        rw [h2]
        exact ⟨rfl, rfl, fun _ => rfl⟩
    · push_neg at hneeds
      obtain ⟨hn1, hn2, hn3⟩ := hneeds
      rcases hcs : meta.chunks with _ | cs
      · exact absurd hcs hn1
      have hne : ¬ cs = [] := fun hh => hn2 (by rw [hcs, hh])
      have h1 := processEntry_cache_hit fs name meta st cs hfs hcs hne hn3
      rw [h1]
      dsimp only
      have h2 := processEntry_cache_hit fs name
        { file_path := meta.file_path
          chunks := some cs
          num_chunks := meta.num_chunks
          last_modified := meta.last_modified
          file_name := some (pyBasename meta.file_path)
          size_kb := some (pyRound2 ((st.size : ℚ) / 1024))
          created_at := some st.ctime } st cs hfs rfl hne hn3
      rw [h2]
      exact ⟨rfl, rfl, fun _ => rfl⟩

/-- Claim C6 counterexample: a tracked file whose extracted text chunks to the
empty list (here: a file whose text is `""`) defeats the write-skip — its
stored chunk list is empty, so `not file_meta["chunks"]` makes
`needs_chunking` true on EVERY reconcile, and the second call still sets
`updated` and rewrites the backing store, although nothing changed on disk. -/
theorem C6_second_write_cex :
    (load_and_chunk_files (fun p => if p = "/e.txt" then some ⟨1, 1, 0, ""⟩ else none)
      (load_and_chunk_files (fun p => if p = "/e.txt" then some ⟨1, 1, 0, ""⟩ else none)
        [("e.txt", ⟨"/e.txt", none, none, none, none, none, none⟩)]).library).updated
      = true := by
  decide

/-- Claim C6 (amended): calling reconcile twice in succession with no file
changes in between produces identical flattened chunk lists (and source
lists) both times — unconditionally; and the second call performs no store
write PROVIDED that after the first call no tracked file that still exists
carries an empty cached chunk list.  (A tracked file whose extraction yields
zero chunks is re-chunked and re-persisted on every call, which is the one
case the original claim misses.) -/
theorem C6_reconcile_idempotence (fs : FS) (lib : List (String × FileMeta)) :
    (load_and_chunk_files fs (load_and_chunk_files fs lib).library).all_chunks =
      (load_and_chunk_files fs lib).all_chunks ∧
    (load_and_chunk_files fs (load_and_chunk_files fs lib).library).all_sources =
      (load_and_chunk_files fs lib).all_sources ∧
    ((∀ e ∈ (load_and_chunk_files fs lib).library, ∀ st : FsEntry,
        fs e.2.file_path = some st → ¬ e.2.chunks = some []) →
      (load_and_chunk_files fs (load_and_chunk_files fs lib).library).updated
        = false) := by
  induction lib with
  | nil => exact ⟨rfl, rfl, fun _ => rfl⟩
  | cons e rest ih =>
    obtain ⟨ih1, ih2, ih3⟩ := ih
    obtain ⟨p1, p2, p3⟩ := processEntry_idem fs e
    simp only [load_and_chunk_files]
    refine ⟨?_, ?_, ?_⟩
    · rw [p1]
      rw [ih1]
    · rw [p2]
      rw [ih2]
    · intro hyp
      have hhead : ∀ st : FsEntry,
          fs (processEntry fs e).1.2.file_path = some st →
          ¬ (processEntry fs e).1.2.chunks = some [] :=
        fun st hst => hyp (processEntry fs e).1 (List.mem_cons_self _ _) st hst
      have htail : ∀ e' ∈ (load_and_chunk_files fs rest).library, ∀ st : FsEntry,
          fs e'.2.file_path = some st → ¬ e'.2.chunks = some [] :=
        fun e' he' st hst => hyp e' (List.mem_cons_of_mem _ he') st hst
      rw [Bool.or_eq_false_iff]
      exact ⟨p3 hhead, ih3 htail⟩
